import Mathlib

set_option maxRecDepth 4000

/-!
Shallow embedding of the payment-approval workflow of the repository
HK-Payment-Bot (`src/main.py` and `src/bot.py`).

The Mongo collections are modelled as lists of documents, the Telegram
side effects as explicit outputs, and each handler as a pure function
from the pre-state (database, per-user buffer, caller identity, clock)
to the post-state together with the visible replies.  Whether the
post-commit notification sends succeed is passed in as a boolean
(`notifyOk`); in the source an exception from such a send is caught and
performs no further database write, which the embedding mirrors.
-/

/-! ### Record-store primitives

`findOne p l` returns the first document of `l` satisfying `p`, like
`collection.find_one(filter)`.  `updateOne p f l` applies `f` to the
first document satisfying `p` and returns the new list together with
the `modified_count` (0 or 1), like
`collection.update_one(filter, set_doc)`. -/

def findOne {α : Type} (p : α → Bool) : List α → Option α
  | [] => none
  | x :: xs => if p x then some x else findOne p xs

def updateOne {α : Type} (p : α → Bool) (f : α → α) : List α → List α × Nat
  | [] => ([], 0)
  | x :: xs =>
      if p x then (f x :: xs, 1)
      else
        let r := updateOne p f xs
        (x :: r.1, r.2)

/-! ### The `main.py` data model -/

/-- A document of `payments_collection` in `main.py`.  The fields mirror
exactly the keys written by the insert in `handle_screenshot`
(lines 328-339) and by the two `$set` updates in `handle_callback`
(lines 521-529 and 603-610).  `Option` fields model keys that are absent
until some update writes them.  `expiry_at` is included so that claims
about an expiry field can be stated: no statement anywhere in `main.py`
writes such a key, so it is `none` in every reachable document. -/
structure MainRecord where
  pid : Nat
  user_id : Nat
  username : String
  transaction_id : String
  amount : Nat
  period : String
  status : String
  source : String
  created_at : Nat
  screenshot_id : String
  approved_at : Option Nat := none
  approved_by : Option String := none
  premium_activated : Option Bool := none
  rejected_at : Option Nat := none
  rejected_by : Option String := none
  expiry_at : Option Nat := none
  deriving Repr, DecidableEq

/-- The Mongo state touched by the payment flow of `main.py`:
`payments_collection` plus `transactions_collection`.  The latter holds
bare `transaction_id` documents; `main.py` only ever queries it
(lines 215 and 291) - no statement in the file inserts into it.
`nextId` models ObjectId generation for inserts. -/
structure MainDB where
  payments : List MainRecord
  transactions : List String
  nextId : Nat
  deriving Repr, DecidableEq

/-- The in-flight submission stored under `context.user_data["payment"]`
by the deep-link branch of `start` (`main.py` lines 220-227, web-form
flow). -/
structure PaymentBuffer where
  username : String
  transaction_id : String
  amount : Nat
  period : String
  deriving Repr, DecidableEq

/-- The in-flight submission stored under
`context.user_data["pending_payment"]` by `handle_payment_message`
(`main.py` lines 295-303, text flow).  Note that this key differs from
the `"payment"` key which `handle_screenshot` reads at line 310. -/
structure PendingPaymentBuffer where
  user_id : Nat
  username : String
  transaction_id : String
  amount : String
  period_num : String
  period_unit : String
  deriving Repr, DecidableEq

/-- The `context.user_data` dictionary of one submitter, restricted to
the two buffer keys used by the payment flow. -/
structure UserData where
  payment : Option PaymentBuffer := none
  pending_payment : Option PendingPaymentBuffer := none
  deriving Repr, DecidableEq

/-- The user-visible outcomes of the `main.py` handlers, abstracting the
exact message texts. -/
inductive MainReply
  | txnAlreadyProcessed
  | paymentReceivedSendScreenshot
  | invalidFormat
  | txnAlreadyUsed
  | detailsReceived
  | submitDetailsFirst
  | sendAsPhoto
  | verificationSubmitted
  | screenshotError
  | adminOnly
  | paymentNotFound
  | alreadyApproved
  | alreadyRejected
  | approveDone
  | rejectDone
  | processingFailed
  deriving Repr, DecidableEq

/-! ### The `main.py` intake handlers -/

/-- The deep-link branch of `start` in `main.py` (lines 190-257), after
a successfully decoded and validated payload `username|txn|amount|period`:
it checks `transactions_collection` for the transaction id (line 215) and
on success stores the claim in `context.user_data["payment"]` and asks
for the screenshot.  No record-store write happens here. -/
def startDeepLink (db : MainDB) (ud : UserData) (username txn : String)
    (amount : Nat) (period : String) : UserData × MainReply :=
  if (findOne (fun t => t == txn) db.transactions).isSome then
    (ud, MainReply.txnAlreadyProcessed)
  else
    ({ ud with payment := some ⟨username, txn, amount, period⟩ },
     MainReply.paymentReceivedSendScreenshot)

/-- `handle_payment_message` (`main.py` lines 268-305).  `parsed` is the
result of matching `PAYMENT_PATTERN` against the message text
(`none` when the pattern does not match); its fields are
`(username, transaction_id, amount, period_num, period_unit)`.  After
the duplicate check against `transactions_collection` (line 291) the
claim is stored under the `"pending_payment"` key of
`context.user_data`.  No record-store write happens here. -/
def handlePaymentMessage (db : MainDB) (ud : UserData) (userId : Nat)
    (parsed : Option (String × String × String × String × String)) :
    UserData × MainReply :=
  match parsed with
  | none => (ud, MainReply.invalidFormat)
  | some (username, txn, amount, periodNum, periodUnit) =>
      if (findOne (fun t => t == txn) db.transactions).isSome then
        (ud, MainReply.txnAlreadyUsed)
      else
        ({ ud with pending_payment := some ⟨userId, username, txn, amount, periodNum, periodUnit⟩ },
         MainReply.detailsReceived)

/-- The outcome of one `handle_screenshot` invocation. -/
structure ScreenshotResult where
  db : MainDB
  ud : UserData
  reply : MainReply
  adminNotified : Bool
  deriving Repr, DecidableEq

/-- `handle_screenshot` (`main.py` lines 307-378).  If no
`context.user_data["payment"]` entry exists the submitter is prompted to
submit details first (line 311) and nothing is inserted.  Otherwise a
`pending` payment document is inserted (line 328), then the admin is
notified and the submitter gets a confirmation; only after both sends
succeed is the buffer entry deleted (`del context.user_data["payment"]`,
line 367).  `notifyOk = false` models an exception raised by one of the
two sends: it is caught at line 374, after the insert but before the
delete, so the document stays inserted and the buffer entry survives. -/
def handleScreenshot (db : MainDB) (ud : UserData) (userId : Nat)
    (hasPhoto : Bool) (screenshotId : String) (now : Nat)
    (notifyOk : Bool) : ScreenshotResult :=
  match ud.payment with
  | none => ⟨db, ud, MainReply.submitDetailsFirst, false⟩
  | some pd =>
      if hasPhoto = false then ⟨db, ud, MainReply.sendAsPhoto, false⟩
      else
        let doc : MainRecord :=
          { pid := db.nextId
            user_id := userId
            username := pd.username
            transaction_id := pd.transaction_id
            amount := pd.amount
            period := pd.period
            status := "pending"
            source := "web_form"
            created_at := now
            screenshot_id := screenshotId }
        let db1 : MainDB :=
          { db with
            payments := db.payments ++ [doc]
            nextId := db.nextId + 1 }
        if notifyOk then
          ⟨db1, { ud with payment := none }, MainReply.verificationSubmitted,
           true⟩
        else
          ⟨db1, ud, MainReply.screenshotError, false⟩

/-! ### The `main.py` decision handler -/

/-- The two actions carried by the `approve_<id>` / `reject_<id>`
callback data. -/
inductive CbAction
  | approve
  | reject
  deriving Repr, DecidableEq

/-- The filter document of the approve update in `handle_callback`
(`main.py` line 522): `{"_id": payment_id, "status": {"$ne": "approved"}}`.
The status condition is `not equal to "approved"`, not
`equal to "pending"`. -/
def approveFilter (paymentId : Nat) (d : MainRecord) : Bool :=
  d.pid == paymentId && d.status != "approved"

/-- The `$set` document of the approve update (`main.py` lines 523-528). -/
def approveSet (adminUsername : String) (now : Nat) (d : MainRecord) :
    MainRecord :=
  { d with
    status := "approved"
    approved_at := some now
    approved_by := some adminUsername
    premium_activated := some false }

/-- The filter document of the reject update in `handle_callback`
(`main.py` line 604): `{"_id": payment_id, "status": {"$ne": "rejected"}}`. -/
def rejectFilter (paymentId : Nat) (d : MainRecord) : Bool :=
  d.pid == paymentId && d.status != "rejected"

/-- The `$set` document of the reject update (`main.py` lines 605-609). -/
def rejectSet (adminUsername : String) (now : Nat) (d : MainRecord) :
    MainRecord :=
  { d with
    status := "rejected"
    rejected_at := some now
    rejected_by := some adminUsername }

/-- The outcome of one `handle_callback` invocation.
`userNotifyStarted` records whether the submitter-notification task was
created (`asyncio.create_task`, lines 536 and 617). -/
structure CallbackResult where
  db : MainDB
  reply : MainReply
  userNotifyStarted : Bool
  deriving Repr, DecidableEq

/-- `handle_callback` (`main.py` lines 488-652).  `adminChatId` is the
configured `ADMIN_CHAT_ID`; a caller with any other id is answered
"Admin only action" before anything touches the database (lines 498-501).
Then the record is fetched (line 504; not found at line 515), and the
action runs its conditioned update.  When `modified_count` is zero the
handler answers that the payment was already approved / rejected and
returns before any notification (lines 531-533 and 612-614).  On a real
modification the submitter-notification task is started and further
awaited sends follow; `notifyOk = false` models an exception from those
sends, caught at line 644 with no further database write. -/
def handleCallback (adminChatId : Nat) (db : MainDB) (callerId : Nat)
    (callerUsername : String) (act : CbAction) (paymentId : Nat)
    (now : Nat) (notifyOk : Bool) : CallbackResult :=
  if callerId != adminChatId then ⟨db, MainReply.adminOnly, false⟩
  else
    match findOne (fun r => r.pid == paymentId) db.payments with
    | none => ⟨db, MainReply.paymentNotFound, false⟩
    | some _ =>
        match act with
        | CbAction.approve =>
            let r := updateOne (approveFilter paymentId)
              (approveSet callerUsername now) db.payments
            if r.2 == 0 then
              ⟨{ db with payments := r.1 }, MainReply.alreadyApproved, false⟩
            else
              ⟨{ db with payments := r.1 },
               if notifyOk then MainReply.approveDone
               else MainReply.processingFailed, true⟩
        | CbAction.reject =>
            let r := updateOne (rejectFilter paymentId)
              (rejectSet callerUsername now) db.payments
            if r.2 == 0 then
              ⟨{ db with payments := r.1 }, MainReply.alreadyRejected, false⟩
            else
              ⟨{ db with payments := r.1 },
               if notifyOk then MainReply.rejectDone
               else MainReply.processingFailed, true⟩

/-- Python `str.lower()` restricted to its ASCII behaviour, modelled
character by character (the usernames and period units of this program
are ASCII). -/
def strLower (s : String) : String :=
  String.mk (s.data.map Char.toLower)

/-- `convert_period_to_days` (`main.py` lines 111-120): the unit is
lowercased, day/days pass the count through, month/months multiply by
30, the exact unit "year" (singular only) multiplies by 365, and any
other unit - including the plural "years" - falls through to the bare
count. -/
def convert_period_to_days (periodNum : Nat) (periodUnit : String) : Nat :=
  let u := strLower periodUnit
  if u == "day" || u == "days" then periodNum
  else if u == "month" || u == "months" then periodNum * 30
  else if u == "year" then periodNum * 365
  else periodNum

/-! ### The `bot.py` data model -/

/-- A document of `payment_requests_collection` in `bot.py`, with exactly
the keys written by the insert in `handle_message` (lines 124-134) and by
the `$set` update in `button_callback` (lines 217-226).  Note that
`button_callback` sets `status` to the raw action string taken from the
callback data, i.e. "approve" or "reject" (line 218). -/
structure BotRecord where
  rid : Nat
  user_id : Nat
  username : String
  transaction_id : String
  amount : String
  time_period : String
  status : String
  admin_notes : Option String := none
  created_at : Nat
  approved_rejected_at : Option Nat := none
  deriving Repr, DecidableEq

/-- The Mongo state of `bot.py`: the single `payment_requests`
collection.  `nextId` models ObjectId generation for inserts. -/
structure BotDB where
  payment_requests : List BotRecord
  nextId : Nat
  deriving Repr, DecidableEq

/-- The user-visible outcomes of the `bot.py` handlers, abstracting the
exact message texts. -/
inductive BotReply
  | parseFailed
  | usernameMismatch
  | requestReceived
  | requestNotFound
  | alreadyHandled
  | decisionDone
  | processingError
  deriving Repr, DecidableEq

/-- Python `str.capitalize()`: first character uppercased, the rest
lowercased (used for the `admin_notes` text in `button_callback`,
line 219). -/
def pyCapitalize (s : String) : String :=
  match s.data with
  | [] => ""
  | c :: cs => String.mk (c.toUpper :: cs.map Char.toLower)

/-! ### The `bot.py` handlers -/

/-- The text branch of `handle_message` (`bot.py` lines 96-193).
`parsed` is the regex extraction
`(telegram_username, transaction_id, amount, time_period)` from the
message (`none` when the pattern does not match).  `senderUsername` is
`update.effective_user.username or full_name`.  When the username
claimed inside the message does not equal the sender username
case-insensitively (line 116), a warning is sent and nothing is
inserted; otherwise a `pending` request document is inserted
(lines 124-137) and the admin is notified. -/
def botHandleMessage (db : BotDB) (userId : Nat) (senderUsername : String)
    (parsed : Option (String × String × String × String)) (now : Nat) :
    BotDB × BotReply :=
  match parsed with
  | none => (db, BotReply.parseFailed)
  | some (claimed, txn, amount, timePeriod) =>
      if strLower senderUsername != strLower claimed then
        (db, BotReply.usernameMismatch)
      else
        let doc : BotRecord :=
          { rid := db.nextId
            user_id := userId
            username := senderUsername
            transaction_id := txn
            amount := amount
            time_period := timePeriod
            status := "pending"
            admin_notes := none
            created_at := now
            approved_rejected_at := none }
        ({ payment_requests := db.payment_requests ++ [doc]
           nextId := db.nextId + 1 },
         BotReply.requestReceived)

/-- The filter document of the status update in `button_callback`
(`bot.py` line 224): `{"_id": request_db_id}` - the id alone, with no
condition on the current status. -/
def botDecideFilter (requestId : Nat) (d : BotRecord) : Bool :=
  d.rid == requestId

/-- The `$set` document built in `button_callback` (lines 217-221):
status becomes the raw action string, `admin_notes` records who decided,
`approved_rejected_at` the decision time. -/
def botDecideSet (act : String) (callerUsername : String) (callerId : Nat)
    (now : Nat) (d : BotRecord) : BotRecord :=
  { d with
    status := act
    admin_notes := some (pyCapitalize act ++ " by @" ++ callerUsername ++
      " (ID: " ++ toString callerId ++ ")")
    approved_rejected_at := some now }

/-- The outcome of one `button_callback` invocation.  `userNotified`
records whether the submitter notification message was sent. -/
structure BotCallbackResult where
  db : BotDB
  reply : BotReply
  userNotified : Bool
  deriving Repr, DecidableEq

/-- `button_callback` (`bot.py` lines 195-281).  No check of the caller
against the configured administrator is performed anywhere in the
handler: any `callerId` / `callerUsername` is processed identically.
The record is fetched (line 206; not found at line 208); if the read
shows a status other than "pending" the handler answers that the
request was already handled and returns with no write (lines 213-215).
Otherwise the update writes the new status with a filter on the id
alone (lines 223-226), and the result edit, submitter notification and
log message follow; `notifyOk = false` models an exception from those
sends, caught at line 279 with no further database write. -/
def buttonCallback (db : BotDB) (callerId : Nat) (callerUsername : String)
    (act : String) (requestId : Nat) (now : Nat) (notifyOk : Bool) :
    BotCallbackResult :=
  match findOne (fun r => r.rid == requestId) db.payment_requests with
  | none => ⟨db, BotReply.requestNotFound, false⟩
  | some pr =>
      if pr.status != "pending" then ⟨db, BotReply.alreadyHandled, false⟩
      else
        let r := updateOne (botDecideFilter requestId)
          (botDecideSet act callerUsername callerId now) db.payment_requests
        if notifyOk then
          ⟨{ db with payment_requests := r.1 }, BotReply.decisionDone, true⟩
        else
          ⟨{ db with payment_requests := r.1 }, BotReply.processingError,
           false⟩

/-! ### Helper lemmas about the record-store primitives -/

theorem updateOne_all_false {α : Type} (p : α → Bool) (f : α → α) :
    ∀ l : List α, (∀ x ∈ l, p x = false) → updateOne p f l = (l, 0) := by
  intro l
  induction l with
  | nil => intro _; rfl
  | cons a t ih =>
      intro h
      have ha : p a = false := h a (by simp)
      have ht := ih (fun y hy => h y (by simp [hy]))
      simp [updateOne, ha, ht]

theorem findOne_first {α : Type} (p : α → Bool) :
    ∀ (l1 : List α) (x : α) (l2 : List α),
      (∀ y ∈ l1, p y = false) → p x = true →
      findOne p (l1 ++ x :: l2) = some x := by
  intro l1
  induction l1 with
  | nil => intro x l2 _ hx; simp [findOne, hx]
  | cons a t ih =>
      intro x l2 h hx
      have ha : p a = false := h a (by simp)
      have ht := ih x l2 (fun y hy => h y (by simp [hy])) hx
      simp [findOne, ha, ht]

theorem updateOne_first {α : Type} (p : α → Bool) (f : α → α) :
    ∀ (l1 : List α) (x : α) (l2 : List α),
      (∀ y ∈ l1, p y = false) → p x = true →
      updateOne p f (l1 ++ x :: l2) = (l1 ++ f x :: l2, 1) := by
  intro l1
  induction l1 with
  | nil => intro x l2 _ hx; simp [updateOne, hx]
  | cons a t ih =>
      intro x l2 h hx
      have ha : p a = false := h a (by simp)
      have ht := ih x l2 (fun y hy => h y (by simp [hy])) hx
      simp [updateOne, ha, ht]

/-! ### Operational lemmas about the decision handlers

The database is decomposed as `l1 ++ rec :: l2` where `rec` is the
record the decision addresses and `l1` contains no record with its id
(ObjectIds are unique, so in reachable states neither does `l2`; the
lemmas assume this only where they need it). -/

theorem handleCallback_approve_success (cfg k now pid : Nat)
    (ts : List String) (l1 l2 : List MainRecord) (rec : MainRecord)
    (un : String) (nOk : Bool) (h1 : rec.pid = pid)
    (h2 : ∀ y ∈ l1, y.pid ≠ pid) (h3 : rec.status ≠ "approved") :
    handleCallback cfg ⟨l1 ++ rec :: l2, ts, k⟩ cfg un CbAction.approve pid
      now nOk =
    ⟨⟨l1 ++ approveSet un now rec :: l2, ts, k⟩,
     if nOk then MainReply.approveDone else MainReply.processingFailed,
     true⟩ := by
  have hfind : findOne (fun r => r.pid == pid) (l1 ++ rec :: l2) = some rec :=
    findOne_first _ l1 rec l2 (fun y hy => by simp [h2 y hy]) (by simp [h1])
  have hupd : updateOne (approveFilter pid) (approveSet un now)
      (l1 ++ rec :: l2) = (l1 ++ approveSet un now rec :: l2, 1) :=
    updateOne_first _ _ l1 rec l2
      (fun y hy => by simp [approveFilter, h2 y hy])
      (by simp [approveFilter, h1, h3])
  simp [handleCallback, hfind, hupd]

theorem handleCallback_approve_noop (cfg k now pid : Nat)
    (ts : List String) (l1 l2 : List MainRecord) (rec : MainRecord)
    (un : String) (nOk : Bool) (h1 : rec.pid = pid)
    (h2 : ∀ y ∈ l1, y.pid ≠ pid) (h3 : rec.status = "approved")
    (h4 : ∀ y ∈ l2, y.pid = pid → y.status = "approved") :
    handleCallback cfg ⟨l1 ++ rec :: l2, ts, k⟩ cfg un CbAction.approve pid
      now nOk =
    ⟨⟨l1 ++ rec :: l2, ts, k⟩, MainReply.alreadyApproved, false⟩ := by
  have hfind : findOne (fun r => r.pid == pid) (l1 ++ rec :: l2) = some rec :=
    findOne_first _ l1 rec l2 (fun y hy => by simp [h2 y hy]) (by simp [h1])
  have hupd : updateOne (approveFilter pid) (approveSet un now)
      (l1 ++ rec :: l2) = (l1 ++ rec :: l2, 0) := by
    apply updateOne_all_false
    intro x hx
    rcases List.mem_append.mp hx with hx1 | hx2
    · simp [approveFilter, h2 x hx1]
    · rcases List.mem_cons.mp hx2 with hx3 | hx4
      · subst hx3; simp [approveFilter, h3]
      · by_cases hp : x.pid = pid
        · simp [approveFilter, h4 x hx4 hp]
        · simp [approveFilter, hp]
  simp [handleCallback, hfind, hupd]

theorem handleCallback_reject_success (cfg k now pid : Nat)
    (ts : List String) (l1 l2 : List MainRecord) (rec : MainRecord)
    (un : String) (nOk : Bool) (h1 : rec.pid = pid)
    (h2 : ∀ y ∈ l1, y.pid ≠ pid) (h3 : rec.status ≠ "rejected") :
    handleCallback cfg ⟨l1 ++ rec :: l2, ts, k⟩ cfg un CbAction.reject pid
      now nOk =
    ⟨⟨l1 ++ rejectSet un now rec :: l2, ts, k⟩,
     if nOk then MainReply.rejectDone else MainReply.processingFailed,
     true⟩ := by
  have hfind : findOne (fun r => r.pid == pid) (l1 ++ rec :: l2) = some rec :=
    findOne_first _ l1 rec l2 (fun y hy => by simp [h2 y hy]) (by simp [h1])
  have hupd : updateOne (rejectFilter pid) (rejectSet un now)
      (l1 ++ rec :: l2) = (l1 ++ rejectSet un now rec :: l2, 1) :=
    updateOne_first _ _ l1 rec l2
      (fun y hy => by simp [rejectFilter, h2 y hy])
      (by simp [rejectFilter, h1, h3])
  simp [handleCallback, hfind, hupd]

theorem handleCallback_reject_noop (cfg k now pid : Nat)
    (ts : List String) (l1 l2 : List MainRecord) (rec : MainRecord)
    (un : String) (nOk : Bool) (h1 : rec.pid = pid)
    (h2 : ∀ y ∈ l1, y.pid ≠ pid) (h3 : rec.status = "rejected")
    (h4 : ∀ y ∈ l2, y.pid = pid → y.status = "rejected") :
    handleCallback cfg ⟨l1 ++ rec :: l2, ts, k⟩ cfg un CbAction.reject pid
      now nOk =
    ⟨⟨l1 ++ rec :: l2, ts, k⟩, MainReply.alreadyRejected, false⟩ := by
  have hfind : findOne (fun r => r.pid == pid) (l1 ++ rec :: l2) = some rec :=
    findOne_first _ l1 rec l2 (fun y hy => by simp [h2 y hy]) (by simp [h1])
  have hupd : updateOne (rejectFilter pid) (rejectSet un now)
      (l1 ++ rec :: l2) = (l1 ++ rec :: l2, 0) := by
    apply updateOne_all_false
    intro x hx
    rcases List.mem_append.mp hx with hx1 | hx2
    · simp [rejectFilter, h2 x hx1]
    · rcases List.mem_cons.mp hx2 with hx3 | hx4
      · subst hx3; simp [rejectFilter, h3]
      · by_cases hp : x.pid = pid
        · simp [rejectFilter, h4 x hx4 hp]
        · simp [rejectFilter, hp]
  simp [handleCallback, hfind, hupd]

theorem buttonCallback_pending (k now rid cid : Nat)
    (l1 l2 : List BotRecord) (rec : BotRecord) (cun act : String)
    (nOk : Bool) (h1 : rec.rid = rid) (h2 : ∀ y ∈ l1, y.rid ≠ rid)
    (h3 : rec.status = "pending") :
    buttonCallback ⟨l1 ++ rec :: l2, k⟩ cid cun act rid now nOk =
    ⟨⟨l1 ++ botDecideSet act cun cid now rec :: l2, k⟩,
     if nOk then BotReply.decisionDone else BotReply.processingError,
     nOk⟩ := by
  have hfind : findOne (fun r => r.rid == rid) (l1 ++ rec :: l2) = some rec :=
    findOne_first _ l1 rec l2 (fun y hy => by simp [h2 y hy]) (by simp [h1])
  have hupd : updateOne (botDecideFilter rid)
      (botDecideSet act cun cid now) (l1 ++ rec :: l2) =
      (l1 ++ botDecideSet act cun cid now rec :: l2, 1) :=
    updateOne_first _ _ l1 rec l2
      (fun y hy => by simp [botDecideFilter, h2 y hy])
      (by simp [botDecideFilter, h1])
  cases nOk with
  | true => simp [buttonCallback, hfind, hupd, h3]
  | false => simp [buttonCallback, hfind, hupd, h3]

theorem buttonCallback_decided (k now rid cid : Nat)
    (l1 l2 : List BotRecord) (rec : BotRecord) (cun act : String)
    (nOk : Bool) (h1 : rec.rid = rid) (h2 : ∀ y ∈ l1, y.rid ≠ rid)
    (h3 : rec.status ≠ "pending") :
    buttonCallback ⟨l1 ++ rec :: l2, k⟩ cid cun act rid now nOk =
    ⟨⟨l1 ++ rec :: l2, k⟩, BotReply.alreadyHandled, false⟩ := by
  have hfind : findOne (fun r => r.rid == rid) (l1 ++ rec :: l2) = some rec :=
    findOne_first _ l1 rec l2 (fun y hy => by simp [h2 y hy]) (by simp [h1])
  simp [buttonCallback, hfind, h3]

/-! ### Claim C1 -/

/-- First submission of transaction id 123456789012 through the live
web-form intake of `main.py`: deep-link `start` followed by
`handle_screenshot`. -/
def c1Shot1 : ScreenshotResult :=
  handleScreenshot ⟨[], [], 0⟩
    (startDeepLink ⟨[], [], 0⟩ ⟨none, none⟩ "alice" "123456789012" 60
      "3Months").1
    7 true "f1" 100 true

/-- Resubmission of the very same transaction id after the first record
is stored: the `start` duplicate check runs against the state produced
by the first submission. -/
def c1Resubmit : UserData × MainReply :=
  startDeepLink c1Shot1.db c1Shot1.ud "alice" "123456789012" 60 "3Months"

/-- The state after the resubmission also passes `handle_screenshot`. -/
def c1Shot2 : ScreenshotResult :=
  handleScreenshot c1Shot1.db c1Resubmit.1 7 true "f2" 200 true

/-- C1: the claim says a submission whose `transaction_id` equals that of
any existing record fails with `DuplicateTransaction` and no record is
created, so no two pending records ever share a transaction id.  The
code violates this: the duplicate check (`main.py` lines 215 and 291)
queries `transactions_collection`, but no statement in the repository
ever inserts into that collection, so the check never fires on data the
program created.  Evaluating the intake twice on the same transaction
id shows the resubmission is answered with the normal
"send your screenshot" confirmation, not the duplicate rejection, and
the store ends up with two `pending` records sharing the transaction
id. -/
theorem C1_duplicate_check_ineffective :
    c1Resubmit.2 = MainReply.paymentReceivedSendScreenshot ∧
    c1Resubmit.2 ≠ MainReply.txnAlreadyProcessed ∧
    c1Shot2.db.payments.map (fun r => (r.transaction_id, r.status)) =
      [("123456789012", "pending"), ("123456789012", "pending")] := by
  decide

/-! ### Claim C2 -/

/-- A payment record that was already rejected; used to probe the guard
of the approve update. -/
def c2Rec : MainRecord :=
  { pid := 0
    user_id := 7
    username := "alice"
    transaction_id := "111122223333"
    amount := 60
    period := "3Months"
    status := "rejected"
    source := "web_form"
    created_at := 10
    screenshot_id := "s0"
    rejected_at := some 20
    rejected_by := some "boss" }

/-- C2 counterexample: the claim says every decide writes the status
only through an update conditioned on the current status still being
"pending".  The approve update of `handle_callback` is conditioned on
`status != "approved"` instead (`main.py` line 522): approving a record
whose current status is "rejected" - not pending - modifies it and
reports success, which a pending-conditioned write would never do. -/
theorem C2_counterexample :
    (handleCallback 1 ⟨[c2Rec], [], 1⟩ 1 "boss" CbAction.approve 0 99
      true).reply = MainReply.approveDone ∧
    (handleCallback 1 ⟨[c2Rec], [], 1⟩ 1 "boss" CbAction.approve 0 99
      true).db.payments.map (fun r => r.status) = ["approved"] := by
  decide

/-- C2 as amended: in `main.py` each decide action writes the status
through an update conditioned on the current status differing from the
action's own target status (`$ne "approved"` for approve, line 522;
`$ne "rejected"` for reject, line 604): the update goes through exactly
when the record's status differs from the target, and is a no-op
reported as already-decided otherwise.  In `bot.py`, `button_callback`
guards the write by a separate prior read checking `status = "pending"`
(lines 213-215) and then writes with a filter on the id alone
(lines 223-226): the write happens exactly when that read showed
"pending". -/
theorem C2_amended_guard :
    (∀ (cfg k now pid : Nat) (ts : List String)
       (l1 l2 : List MainRecord) (rec : MainRecord) (un : String)
       (nOk : Bool), rec.pid = pid → (∀ y ∈ l1, y.pid ≠ pid) →
       rec.status ≠ "approved" →
       handleCallback cfg ⟨l1 ++ rec :: l2, ts, k⟩ cfg un CbAction.approve
         pid now nOk =
       ⟨⟨l1 ++ approveSet un now rec :: l2, ts, k⟩,
        if nOk then MainReply.approveDone else MainReply.processingFailed,
        true⟩) ∧
    (∀ (cfg k now pid : Nat) (ts : List String)
       (l1 l2 : List MainRecord) (rec : MainRecord) (un : String)
       (nOk : Bool), rec.pid = pid → (∀ y ∈ l1, y.pid ≠ pid) →
       rec.status = "approved" →
       (∀ y ∈ l2, y.pid = pid → y.status = "approved") →
       handleCallback cfg ⟨l1 ++ rec :: l2, ts, k⟩ cfg un CbAction.approve
         pid now nOk =
       ⟨⟨l1 ++ rec :: l2, ts, k⟩, MainReply.alreadyApproved, false⟩) ∧
    (∀ (cfg k now pid : Nat) (ts : List String)
       (l1 l2 : List MainRecord) (rec : MainRecord) (un : String)
       (nOk : Bool), rec.pid = pid → (∀ y ∈ l1, y.pid ≠ pid) →
       rec.status ≠ "rejected" →
       handleCallback cfg ⟨l1 ++ rec :: l2, ts, k⟩ cfg un CbAction.reject
         pid now nOk =
       ⟨⟨l1 ++ rejectSet un now rec :: l2, ts, k⟩,
        if nOk then MainReply.rejectDone else MainReply.processingFailed,
        true⟩) ∧
    (∀ (cfg k now pid : Nat) (ts : List String)
       (l1 l2 : List MainRecord) (rec : MainRecord) (un : String)
       (nOk : Bool), rec.pid = pid → (∀ y ∈ l1, y.pid ≠ pid) →
       rec.status = "rejected" →
       (∀ y ∈ l2, y.pid = pid → y.status = "rejected") →
       handleCallback cfg ⟨l1 ++ rec :: l2, ts, k⟩ cfg un CbAction.reject
         pid now nOk =
       ⟨⟨l1 ++ rec :: l2, ts, k⟩, MainReply.alreadyRejected, false⟩) ∧
    (∀ (k now rid cid : Nat) (l1 l2 : List BotRecord) (rec : BotRecord)
       (cun act : String) (nOk : Bool), rec.rid = rid →
       (∀ y ∈ l1, y.rid ≠ rid) → rec.status = "pending" →
       buttonCallback ⟨l1 ++ rec :: l2, k⟩ cid cun act rid now nOk =
       ⟨⟨l1 ++ botDecideSet act cun cid now rec :: l2, k⟩,
        if nOk then BotReply.decisionDone else BotReply.processingError,
        nOk⟩) ∧
    (∀ (k now rid cid : Nat) (l1 l2 : List BotRecord) (rec : BotRecord)
       (cun act : String) (nOk : Bool), rec.rid = rid →
       (∀ y ∈ l1, y.rid ≠ rid) → rec.status ≠ "pending" →
       buttonCallback ⟨l1 ++ rec :: l2, k⟩ cid cun act rid now nOk =
       ⟨⟨l1 ++ rec :: l2, k⟩, BotReply.alreadyHandled, false⟩) :=
  ⟨fun cfg k now pid ts l1 l2 rec un nOk h1 h2 h3 =>
      handleCallback_approve_success cfg k now pid ts l1 l2 rec un nOk h1 h2
        h3,
   fun cfg k now pid ts l1 l2 rec un nOk h1 h2 h3 h4 =>
      handleCallback_approve_noop cfg k now pid ts l1 l2 rec un nOk h1 h2 h3
        h4,
   fun cfg k now pid ts l1 l2 rec un nOk h1 h2 h3 =>
      handleCallback_reject_success cfg k now pid ts l1 l2 rec un nOk h1 h2
        h3,
   fun cfg k now pid ts l1 l2 rec un nOk h1 h2 h3 h4 =>
      handleCallback_reject_noop cfg k now pid ts l1 l2 rec un nOk h1 h2 h3
        h4,
   fun k now rid cid l1 l2 rec cun act nOk h1 h2 h3 =>
      buttonCallback_pending k now rid cid l1 l2 rec cun act nOk h1 h2 h3,
   fun k now rid cid l1 l2 rec cun act nOk h1 h2 h3 =>
      buttonCallback_decided k now rid cid l1 l2 rec cun act nOk h1 h2 h3⟩

/-- A pending payment record used to witness the amended C2 guard. -/
def c2PendingRec : MainRecord :=
  { pid := 0
    user_id := 7
    username := "alice"
    transaction_id := "111122223333"
    amount := 60
    period := "3Months"
    status := "pending"
    source := "web_form"
    created_at := 10
    screenshot_id := "s0" }

/-- Witness for the amended C2 theorem at concrete inputs: approving a
pending record goes through, and a bot decide on an already-decided
record is a no-op. -/
theorem C2_amended_guard_witness :
    handleCallback 1 ⟨[c2PendingRec], [], 1⟩ 1 "boss" CbAction.approve 0 99
      true =
      ⟨⟨[approveSet "boss" 99 c2PendingRec], [], 1⟩, MainReply.approveDone,
       true⟩ ∧
    buttonCallback ⟨[⟨0, 7, "alice", "T1", "60", "30 Days", "approve",
      none, 5, none⟩], 1⟩ 1 "boss" "reject" 0 9 true =
      ⟨⟨[⟨0, 7, "alice", "T1", "60", "30 Days", "approve", none, 5,
        none⟩], 1⟩, BotReply.alreadyHandled, false⟩ := by
  constructor
  · have h := C2_amended_guard.1 1 1 99 0 [] [] [] c2PendingRec "boss" true
      rfl (by simp) (by decide)
    simpa using h
  · have h := C2_amended_guard.2.2.2.2.2 1 9 0 1 [] []
      ⟨0, 7, "alice", "T1", "60", "30 Days", "approve", none, 5, none⟩
      "boss" "reject" true rfl (by simp) (by decide)
    simpa using h

/-! ### Claim C3 -/

/-- A payment record that was already approved; used to probe
terminality of the decided statuses. -/
def c3Rec : MainRecord :=
  { pid := 0
    user_id := 8
    username := "bob"
    transaction_id := "222233334444"
    amount := 100
    period := "30 Days"
    status := "approved"
    source := "web_form"
    created_at := 11
    screenshot_id := "s3"
    approved_at := some 50
    approved_by := some "boss"
    premium_activated := some false }

/-- C3 counterexample: the claim says that once a record has left
"pending", no further decide call changes its status or decision
fields.  In `main.py` a reject on an already-approved record goes
through (the reject filter only requires `status != "rejected"`,
line 604): the status flips from "approved" to "rejected" and
`rejected_at` / `rejected_by` are newly written. -/
theorem C3_counterexample :
    (handleCallback 1 ⟨[c3Rec], [], 1⟩ 1 "boss" CbAction.reject 0 77
      true).db.payments.map (fun r => (r.status, r.rejected_at)) =
      [("rejected", some 77)] ∧
    (handleCallback 1 ⟨[c3Rec], [], 1⟩ 1 "boss" CbAction.reject 0 77
      true).reply = MainReply.rejectDone := by
  decide

/-- C3 as amended: repeating the SAME decide action on a record that
already carries that action's target status is a no-op in `main.py`
(approve on "approved", reject on "rejected" - the record, the store and
the decision fields are unchanged and the handler answers
already-approved / already-rejected), but a decide with the opposite
action does change an already-decided record, so "approved" and
"rejected" are not terminal there.  In `bot.py` every status other than
"pending" is terminal: any further decide call leaves the store
unchanged. -/
theorem C3_amended_terminality :
    (∀ (cfg k now pid : Nat) (ts : List String)
       (l1 l2 : List MainRecord) (rec : MainRecord) (un : String)
       (nOk : Bool), rec.pid = pid → (∀ y ∈ l1, y.pid ≠ pid) →
       rec.status = "approved" →
       (∀ y ∈ l2, y.pid = pid → y.status = "approved") →
       handleCallback cfg ⟨l1 ++ rec :: l2, ts, k⟩ cfg un CbAction.approve
         pid now nOk =
       ⟨⟨l1 ++ rec :: l2, ts, k⟩, MainReply.alreadyApproved, false⟩) ∧
    (∀ (cfg k now pid : Nat) (ts : List String)
       (l1 l2 : List MainRecord) (rec : MainRecord) (un : String)
       (nOk : Bool), rec.pid = pid → (∀ y ∈ l1, y.pid ≠ pid) →
       rec.status = "rejected" →
       (∀ y ∈ l2, y.pid = pid → y.status = "rejected") →
       handleCallback cfg ⟨l1 ++ rec :: l2, ts, k⟩ cfg un CbAction.reject
         pid now nOk =
       ⟨⟨l1 ++ rec :: l2, ts, k⟩, MainReply.alreadyRejected, false⟩) ∧
    (∀ (k now rid cid : Nat) (l1 l2 : List BotRecord) (rec : BotRecord)
       (cun act : String) (nOk : Bool), rec.rid = rid →
       (∀ y ∈ l1, y.rid ≠ rid) → rec.status ≠ "pending" →
       (buttonCallback ⟨l1 ++ rec :: l2, k⟩ cid cun act rid now
         nOk).db = ⟨l1 ++ rec :: l2, k⟩) :=
  ⟨fun cfg k now pid ts l1 l2 rec un nOk h1 h2 h3 h4 =>
      handleCallback_approve_noop cfg k now pid ts l1 l2 rec un nOk h1 h2 h3
        h4,
   fun cfg k now pid ts l1 l2 rec un nOk h1 h2 h3 h4 =>
      handleCallback_reject_noop cfg k now pid ts l1 l2 rec un nOk h1 h2 h3
        h4,
   fun k now rid cid l1 l2 rec cun act nOk h1 h2 h3 => by
      rw [buttonCallback_decided k now rid cid l1 l2 rec cun act nOk h1 h2
        h3]⟩

/-- Witness for the amended C3 theorem: approving the already-approved
concrete record and re-deciding a decided bot record are both no-ops. -/
theorem C3_amended_terminality_witness :
    handleCallback 1 ⟨[c3Rec], [], 1⟩ 1 "boss" CbAction.approve 0 60 true =
      ⟨⟨[c3Rec], [], 1⟩, MainReply.alreadyApproved, false⟩ ∧
    (buttonCallback ⟨[⟨0, 7, "alice", "T1", "60", "30 Days", "reject",
      none, 5, none⟩], 1⟩ 2 "someone" "approve" 0 9 true).db =
      ⟨[⟨0, 7, "alice", "T1", "60", "30 Days", "reject", none, 5,
        none⟩], 1⟩ := by
  constructor
  · have h := C3_amended_terminality.1 1 1 60 0 [] [] [] c3Rec "boss" true
      rfl (by simp) (by decide) (by simp)
    simpa using h
  · have h := C3_amended_terminality.2.2 1 9 0 2 [] []
      ⟨0, 7, "alice", "T1", "60", "30 Days", "reject", none, 5, none⟩
      "someone" "approve" true rfl (by simp) (by decide)
    simpa using h

/-! ### Claim C4 -/

/-- A payment record that was already rejected; used to probe the
already-decided behaviour of a subsequent decide. -/
def c4Rec : MainRecord :=
  { pid := 0
    user_id := 9
    username := "carol"
    transaction_id := "333344445555"
    amount := 70
    period := "1Month"
    status := "rejected"
    source := "web_form"
    created_at := 12
    screenshot_id := "s4"
    rejected_at := some 40
    rejected_by := some "boss" }

/-- C4 counterexample: the claim says every decide call on an
already-decided record affects zero records, changes no state and sends
no submitter notification.  In `main.py`, approving a record that was
already rejected modifies it (the approve filter only excludes
"approved", line 522) and starts the submitter-notification task. -/
theorem C4_counterexample :
    (handleCallback 1 ⟨[c4Rec], [], 1⟩ 1 "boss" CbAction.approve 0 88
      true).userNotifyStarted = true ∧
    (handleCallback 1 ⟨[c4Rec], [], 1⟩ 1 "boss" CbAction.approve 0 88
      true).db ≠ ⟨[c4Rec], [], 1⟩ := by
  decide

/-- C4 as amended: a decide that REPEATS the action already applied to
the record is answered already-approved / already-rejected with zero
records affected, no state change and no submitter notification - in
particular, rejecting a record twice in sequence never sends a second
submitter notification (the first reject notifies, the second returns
before the notification task is created, `main.py` lines 612-614).  In
`bot.py` any decide on a non-pending record likewise changes nothing and
notifies nobody.  Only a decide with the OPPOSITE action in `main.py`
escapes this (see the counterexample). -/
theorem C4_amended_already_decided :
    (∀ (cfg k now1 now2 pid : Nat) (ts : List String)
       (l1 l2 : List MainRecord) (rec : MainRecord) (un1 un2 : String)
       (nOk1 nOk2 : Bool), rec.pid = pid → (∀ y ∈ l1, y.pid ≠ pid) →
       (∀ y ∈ l2, y.pid ≠ pid) → rec.status ≠ "rejected" →
       (handleCallback cfg ⟨l1 ++ rec :: l2, ts, k⟩ cfg un1
         CbAction.reject pid now1 nOk1).userNotifyStarted = true ∧
       handleCallback cfg
         (handleCallback cfg ⟨l1 ++ rec :: l2, ts, k⟩ cfg un1
           CbAction.reject pid now1 nOk1).db cfg un2 CbAction.reject pid
           now2 nOk2 =
       ⟨(handleCallback cfg ⟨l1 ++ rec :: l2, ts, k⟩ cfg un1
           CbAction.reject pid now1 nOk1).db, MainReply.alreadyRejected,
        false⟩) ∧
    (∀ (k now rid cid : Nat) (l1 l2 : List BotRecord) (rec : BotRecord)
       (cun act : String) (nOk : Bool), rec.rid = rid →
       (∀ y ∈ l1, y.rid ≠ rid) → rec.status ≠ "pending" →
       buttonCallback ⟨l1 ++ rec :: l2, k⟩ cid cun act rid now nOk =
       ⟨⟨l1 ++ rec :: l2, k⟩, BotReply.alreadyHandled, false⟩) := by
  constructor
  · intro cfg k now1 now2 pid ts l1 l2 rec un1 un2 nOk1 nOk2 h1 h2 h2b h3
    have hfirst := handleCallback_reject_success cfg k now1 pid ts l1 l2 rec
      un1 nOk1 h1 h2 h3
    constructor
    · rw [hfirst]
    · rw [hfirst]
      exact handleCallback_reject_noop cfg k now2 pid ts l1 l2
        (rejectSet un1 now1 rec) un2 nOk2 h1 h2 rfl
        (fun y hy hp => absurd hp (h2b y hy))
  · intro k now rid cid l1 l2 rec cun act nOk h1 h2 h3
    exact buttonCallback_decided k now rid cid l1 l2 rec cun act nOk h1 h2
      h3

/-- Witness for the amended C4 theorem: a concrete reject-twice sequence
notifies once and the second call is a no-op; a bot decide on a decided
record is a no-op. -/
theorem C4_amended_already_decided_witness :
    ((handleCallback 1 ⟨[c2PendingRec], [], 1⟩ 1 "boss" CbAction.reject 0
        30 true).userNotifyStarted = true ∧
      handleCallback 1
        (handleCallback 1 ⟨[c2PendingRec], [], 1⟩ 1 "boss" CbAction.reject
          0 30 true).db 1 "boss" CbAction.reject 0 31 true =
      ⟨(handleCallback 1 ⟨[c2PendingRec], [], 1⟩ 1 "boss" CbAction.reject
          0 30 true).db, MainReply.alreadyRejected, false⟩) ∧
    buttonCallback ⟨[⟨0, 7, "alice", "T1", "60", "30 Days", "approve",
      none, 5, none⟩], 1⟩ 3 "anyone" "approve" 0 9 true =
      ⟨⟨[⟨0, 7, "alice", "T1", "60", "30 Days", "approve", none, 5,
        none⟩], 1⟩, BotReply.alreadyHandled, false⟩ := by
  constructor
  · exact C4_amended_already_decided.1 1 1 30 31 0 [] [] [] c2PendingRec
      "boss" "boss" true true rfl (by simp) (by simp) (by decide)
  · exact C4_amended_already_decided.2 1 9 0 3 [] []
      ⟨0, 7, "alice", "T1", "60", "30 Days", "approve", none, 5, none⟩
      "anyone" "approve" true rfl (by simp) (by decide)

/-! ### Claim C5 -/

/-- A pending bot request used to probe caller authorization. -/
def c5Rec : BotRecord :=
  { rid := 0
    user_id := 7
    username := "alice"
    transaction_id := "TX5"
    amount := "60"
    time_period := "30 Days"
    status := "pending"
    admin_notes := none
    created_at := 5
    approved_rejected_at := none }

/-- C5 counterexample: the claim says a decide from any caller other
than the configured administrator is rejected with no state change.
`button_callback` in `bot.py` performs no caller check at all: callers
999 and 1000 both drive a pending record to "approve" (the configured
administrator is a single chat id, so at least one of the two callers
is not the administrator, yet the state changes for both). -/
theorem C5_counterexample :
    (buttonCallback ⟨[c5Rec], 1⟩ 999 "mallory" "approve" 0 50
      true).db.payment_requests.map (fun r => r.status) = ["approve"] ∧
    (buttonCallback ⟨[c5Rec], 1⟩ 1000 "oscar" "approve" 0 50
      true).db.payment_requests.map (fun r => r.status) = ["approve"] ∧
    (buttonCallback ⟨[c5Rec], 1⟩ 999 "mallory" "approve" 0 50
      true).userNotified = true := by
  decide

/-- C5 as amended: in `main.py`, `handle_callback` answers a caller
whose id differs from the configured `ADMIN_CHAT_ID` with "Admin only
action" and performs no record-store change (lines 498-501).  In
`bot.py`, `button_callback` contains no caller check: a decide on a
pending record is processed for every caller identity, writing the
record exactly as it would for the administrator. -/
theorem C5_amended_authorization :
    (∀ (cfg callerId pid now : Nat) (db : MainDB) (un : String)
       (act : CbAction) (nOk : Bool), callerId ≠ cfg →
       handleCallback cfg db callerId un act pid now nOk =
         ⟨db, MainReply.adminOnly, false⟩) ∧
    (∀ (k now rid cid : Nat) (l1 l2 : List BotRecord) (rec : BotRecord)
       (cun act : String) (nOk : Bool), rec.rid = rid →
       (∀ y ∈ l1, y.rid ≠ rid) → rec.status = "pending" →
       (buttonCallback ⟨l1 ++ rec :: l2, k⟩ cid cun act rid now nOk).db =
         ⟨l1 ++ botDecideSet act cun cid now rec :: l2, k⟩) := by
  constructor
  · intro cfg callerId pid now db un act nOk h
    simp [handleCallback, h]
  · intro k now rid cid l1 l2 rec cun act nOk h1 h2 h3
    rw [buttonCallback_pending k now rid cid l1 l2 rec cun act nOk h1 h2 h3]

/-- Witness for the amended C5 theorem: a non-admin caller (id 2 against
configured id 1) is turned away by `main.py` with the store untouched,
and an arbitrary caller decides a pending `bot.py` record. -/
theorem C5_amended_authorization_witness :
    handleCallback 1 ⟨[c4Rec], [], 1⟩ 2 "intruder" CbAction.approve 0 60
      true = ⟨⟨[c4Rec], [], 1⟩, MainReply.adminOnly, false⟩ ∧
    (buttonCallback ⟨[c5Rec], 1⟩ 42 "randomcaller" "reject" 0 50
      true).db = ⟨[botDecideSet "reject" "randomcaller" 42 50 c5Rec], 1⟩ := by
  constructor
  · exact C5_amended_authorization.1 1 2 0 60 ⟨[c4Rec], [], 1⟩ "intruder"
      CbAction.approve true (by decide)
  · have h := C5_amended_authorization.2 1 50 0 42 [] [] c5Rec
      "randomcaller" "reject" true rfl (by simp) (by decide)
    simpa using h

/-! ### Claim C6 -/

/-- A pending payment record whose period is "30 Days", used to probe
the approval write. -/
def c6Rec : MainRecord :=
  { pid := 0
    user_id := 7
    username := "alice"
    transaction_id := "444455556666"
    amount := 60
    period := "30 Days"
    status := "pending"
    source := "web_form"
    created_at := 10
    screenshot_id := "s6" }

/-- C6 counterexample: the claim says a successful approval computes and
persists `expiry_at` = decision time + validity period together with the
decision fields.  Approving a pending record at time 1000 writes
`status`, `approved_at`, `approved_by` and `premium_activated`
(`main.py` lines 523-528) but no expiry field at all: `expiry_at` is
absent (`none`), not `some (1000 + 30)` as the claim would require for a
30-day period. -/
theorem C6_counterexample :
    (handleCallback 1 ⟨[c6Rec], [], 1⟩ 1 "boss" CbAction.approve 0 1000
      true).db.payments.map (fun r => (r.status, r.approved_at,
        r.expiry_at)) = [("approved", some 1000, none)] ∧
    (handleCallback 1 ⟨[c6Rec], [], 1⟩ 1 "boss" CbAction.approve 0 1000
      true).db.payments.map (fun r => r.expiry_at) ≠
      [some (1000 + convert_period_to_days 30 "day")] := by
  decide

/-- C6 as amended: a successful approval of a pending record persists,
in the single conditioned write, `status = "approved"`, `approved_at` =
the decision time, `approved_by` = the deciding admin and
`premium_activated = false`, and nothing else - in particular no expiry
field is computed or persisted (the record keeps `expiry_at` absent, as
inserted).  The day-conversion helper `convert_period_to_days` does map
day counts through unchanged and months to 30-day multiples, and maps
the exact unit "year" to 365-day multiples while the plural "years"
falls through to the bare count - but no approval path invokes it. -/
theorem C6_amended_approval_fields :
    (∀ (cfg k now pid : Nat) (ts : List String)
       (l1 l2 : List MainRecord) (rec : MainRecord) (un : String)
       (nOk : Bool), rec.pid = pid → (∀ y ∈ l1, y.pid ≠ pid) →
       rec.status = "pending" →
       (handleCallback cfg ⟨l1 ++ rec :: l2, ts, k⟩ cfg un
         CbAction.approve pid now nOk).db =
       ⟨l1 ++ { rec with
                 status := "approved"
                 approved_at := some now
                 approved_by := some un
                 premium_activated := some false } :: l2, ts, k⟩) ∧
    (∀ (db : MainDB) (ud : UserData) (pd : PaymentBuffer)
       (uid now : Nat) (sid : String) (nOk : Bool),
       ud.payment = some pd →
       (handleScreenshot db ud uid true sid now nOk).db.payments =
       db.payments ++
         [{ pid := db.nextId
            user_id := uid
            username := pd.username
            transaction_id := pd.transaction_id
            amount := pd.amount
            period := pd.period
            status := "pending"
            source := "web_form"
            created_at := now
            screenshot_id := sid
            expiry_at := none }]) ∧
    (∀ n : Nat, convert_period_to_days n "day" = n ∧
       convert_period_to_days n "days" = n ∧
       convert_period_to_days n "month" = n * 30 ∧
       convert_period_to_days n "months" = n * 30 ∧
       convert_period_to_days n "year" = n * 365 ∧
       convert_period_to_days n "years" = n) := by
  refine ⟨?_, ?_, ?_⟩
  · intro cfg k now pid ts l1 l2 rec un nOk h1 h2 h3
    have h3a : rec.status ≠ "approved" := by rw [h3]; decide
    rw [handleCallback_approve_success cfg k now pid ts l1 l2 rec un nOk h1
      h2 h3a]
    simp [approveSet]
  · intro db ud pd uid now sid nOk hud
    cases nOk <;> simp [handleScreenshot, hud]
  · intro n
    refine ⟨?_, ?_, ?_, ?_, ?_, ?_⟩ <;>
      simp [convert_period_to_days, strLower]

/-- Witness for the amended C6 theorem: the concrete approval write and
a concrete screenshot insert, both leaving the expiry field absent. -/
theorem C6_amended_approval_fields_witness :
    (handleCallback 1 ⟨[c6Rec], [], 1⟩ 1 "boss" CbAction.approve 0 1000
      true).db =
      ⟨[{ c6Rec with
          status := "approved"
          approved_at := some 1000
          approved_by := some "boss"
          premium_activated := some false }], [], 1⟩ ∧
    (handleScreenshot ⟨[], [], 0⟩ ⟨some ⟨"alice", "TX6", 60, "1Month"⟩,
      none⟩ 7 true "p6" 44 true).db.payments =
      [{ pid := 0
         user_id := 7
         username := "alice"
         transaction_id := "TX6"
         amount := 60
         period := "1Month"
         status := "pending"
         source := "web_form"
         created_at := 44
         screenshot_id := "p6"
         expiry_at := none }] ∧
    convert_period_to_days 3 "month" = 90 := by
  refine ⟨?_, ?_, ?_⟩
  · have h := (C6_amended_approval_fields.1 1 1 1000 0 [] [] [] c6Rec
      "boss" true rfl (by simp) rfl)
    simpa using h
  · have h := C6_amended_approval_fields.2.1 ⟨[], [], 0⟩
      ⟨some ⟨"alice", "TX6", 60, "1Month"⟩, none⟩
      ⟨"alice", "TX6", 60, "1Month"⟩ 7 44 "p6" true rfl
    simpa using h
  · have h := (C6_amended_approval_fields.2.2 3).2.2.1
    simpa using h

/-! ### Claim C7 -/

/-- An existing pending record of user 7 with transaction id TX1. -/
def c7OldRec : MainRecord :=
  { pid := 0
    user_id := 7
    username := "alice"
    transaction_id := "TX1"
    amount := 60
    period := "1Month"
    status := "pending"
    source := "web_form"
    created_at := 10
    screenshot_id := "s7" }

/-- The intake flow run for TX2 while user 7 still has the pending TX1
record: deep-link `start` followed by `handle_screenshot`. -/
def c7Flow : ScreenshotResult :=
  handleScreenshot ⟨[c7OldRec], [], 1⟩
    (startDeepLink ⟨[c7OldRec], [], 1⟩ ⟨none, none⟩ "alice" "TX2" 60
      "1Month").1
    7 true "s8" 300 true

/-- C7 counterexample: the claim says that a submission from a user who
already has a pending record is not silently turned into a second
record - a replace/keep choice must intervene, with replace cancelling
the old record.  The code has no such step: submitting TX2 while TX1 is
pending is answered with the ordinary confirmation, a second pending
record is created, and TX1 stays "pending" (nothing is ever set to
"cancelled"). -/
theorem C7_counterexample :
    (startDeepLink ⟨[c7OldRec], [], 1⟩ ⟨none, none⟩ "alice" "TX2" 60
      "1Month").2 = MainReply.paymentReceivedSendScreenshot ∧
    c7Flow.db.payments.map (fun r => (r.transaction_id, r.status)) =
      [("TX1", "pending"), ("TX2", "pending")] := by
  decide

/-- C7 as amended: a submission from a submitter with an existing
pending record is processed exactly like any other submission - no
replace/keep choice is offered, the prior pending record is left
untouched (never cancelled), and a second record is inserted with
status "pending". -/
theorem C7_amended_second_pending :
    ∀ (db : MainDB) (ud : UserData) (uid now amt : Nat)
      (un txn per sid : String),
      findOne (fun t => t == txn) db.transactions = none →
      (∃ r ∈ db.payments, r.user_id = uid ∧ r.status = "pending") →
      (startDeepLink db ud un txn amt per).2 =
        MainReply.paymentReceivedSendScreenshot ∧
      (handleScreenshot db (startDeepLink db ud un txn amt per).1 uid true
        sid now true).db.payments =
      db.payments ++
        [{ pid := db.nextId
           user_id := uid
           username := un
           transaction_id := txn
           amount := amt
           period := per
           status := "pending"
           source := "web_form"
           created_at := now
           screenshot_id := sid }] := by
  intro db ud uid now amt un txn per sid htxn hpend
  constructor
  · simp [startDeepLink, htxn]
  · simp [startDeepLink, handleScreenshot, htxn]

/-- Witness for the amended C7 theorem at the concrete TX1/TX2 state. -/
theorem C7_amended_second_pending_witness :
    (startDeepLink ⟨[c7OldRec], [], 1⟩ ⟨none, none⟩ "alice" "TX2" 60
      "1Month").2 = MainReply.paymentReceivedSendScreenshot ∧
    (handleScreenshot ⟨[c7OldRec], [], 1⟩
      (startDeepLink ⟨[c7OldRec], [], 1⟩ ⟨none, none⟩ "alice" "TX2" 60
        "1Month").1 7 true "s8" 300 true).db.payments =
    [c7OldRec] ++
      [{ pid := 1
         user_id := 7
         username := "alice"
         transaction_id := "TX2"
         amount := 60
         period := "1Month"
         status := "pending"
         source := "web_form"
         created_at := 300
         screenshot_id := "s8" }] :=
  C7_amended_second_pending ⟨[c7OldRec], [], 1⟩ ⟨none, none⟩ 7 300 60
    "alice" "TX2" "1Month" "s8" rfl ⟨c7OldRec, by simp, rfl, rfl⟩

/-! ### Claim C8 -/

/-- C8: once a decide has committed its status transition to the record
store, a failure of the downstream notifications never reverses it: in
both `handle_callback` (`main.py`, exception caught at line 644) and
`button_callback` (`bot.py`, exception caught at line 279) the database
resulting from the call is the same whether the post-commit sends
succeed or fail - the notification outcome influences only the replies,
never the stored records. -/
theorem C8_commit_independent_of_notification :
    ∀ (cfg callerId pid now : Nat) (db : MainDB) (un : String)
      (act : CbAction) (nOk : Bool) (bdb : BotDB)
      (bCallerId rid bnow : Nat) (bun bact : String) (bnOk : Bool),
      (handleCallback cfg db callerId un act pid now nOk).db =
        (handleCallback cfg db callerId un act pid now true).db ∧
      (buttonCallback bdb bCallerId bun bact rid bnow bnOk).db =
        (buttonCallback bdb bCallerId bun bact rid bnow true).db := by
  intro cfg callerId pid now db un act nOk bdb bCallerId rid bnow bun bact
    bnOk
  constructor
  · by_cases h1 : (callerId != cfg) = true
    · simp [handleCallback, h1]
    · cases hf : findOne (fun r => r.pid == pid) db.payments with
      | none => simp [handleCallback, h1, hf]
      | some p =>
          cases act with
          | approve =>
              by_cases h2 : ((updateOne (approveFilter pid)
                  (approveSet un now) db.payments).2 == 0) = true
              · simp [handleCallback, h1, hf, h2]
              · simp [handleCallback, h1, hf, h2]
          | reject =>
              by_cases h2 : ((updateOne (rejectFilter pid)
                  (rejectSet un now) db.payments).2 == 0) = true
              · simp [handleCallback, h1, hf, h2]
              · simp [handleCallback, h1, hf, h2]
  · cases hf : findOne (fun r => r.rid == rid) bdb.payment_requests with
    | none => simp [buttonCallback, hf]
    | some p =>
        by_cases h3 : (p.status != "pending") = true
        · simp [buttonCallback, hf, h3]
        · cases bnOk <;> simp [buttonCallback, hf, h3]

/-! ### Claim C9 -/

/-- A user-data state holding one in-flight "payment" buffer entry. -/
def c9Ud : UserData := ⟨some ⟨"alice", "TX9", 60, "1Month"⟩, none⟩

/-- The first photo for the buffered claim, with the notification sends
failing (exception after the insert, before the buffer delete). -/
def c9Shot1 : ScreenshotResult :=
  handleScreenshot ⟨[], [], 0⟩ c9Ud 7 true "p1" 10 false

/-- A second photo from the same user, without any new submission,
handled against the state left by the failed notification. -/
def c9Shot2 : ScreenshotResult :=
  handleScreenshot c9Shot1.db c9Shot1.ud 7 true "p2" 20 true

/-- C9 counterexample: the claim says the buffer entry is deleted
immediately after the successful insert, so at most one record is ever
created per submitted claim.  In the code the delete only happens after
the admin notification and the user confirmation succeed (`main.py`
line 367, inside the `try`): when the notification fails the insert has
already happened but the buffer survives, and a second photo inserts a
second record for the same single claim. -/
theorem C9_counterexample :
    c9Shot1.db.payments.map (fun r => r.transaction_id) = ["TX9"] ∧
    c9Shot1.ud.payment = c9Ud.payment ∧
    c9Shot2.db.payments.map (fun r => r.transaction_id) =
      ["TX9", "TX9"] := by
  decide

/-- C9 as amended: a record is inserted only when the in-flight
"payment" buffer entry exists (without it the photo is answered with
the submit-details-first prompt and nothing is inserted), and the
buffer entry is deleted only after the insert AND the notification
sends succeed.  When the sends succeed, exactly one record is created
and a second photo without a new submission inserts nothing and gets
the prompt; when the sends fail after the insert, the buffer survives,
so a further photo can insert a second record for the same claim. -/
theorem C9_amended_buffer_lifecycle :
    (∀ (db : MainDB) (ud : UserData) (uid now : Nat) (hp : Bool)
       (sid : String) (nOk : Bool), ud.payment = none →
       handleScreenshot db ud uid hp sid now nOk =
         ⟨db, ud, MainReply.submitDetailsFirst, false⟩) ∧
    (∀ (db : MainDB) (ud : UserData) (pd : PaymentBuffer)
       (uid now now2 : Nat) (sid sid2 : String) (nOk2 : Bool),
       ud.payment = some pd →
       (handleScreenshot db ud uid true sid now true).ud.payment = none ∧
       (handleScreenshot db ud uid true sid now true).db.payments =
         db.payments ++
           [{ pid := db.nextId
              user_id := uid
              username := pd.username
              transaction_id := pd.transaction_id
              amount := pd.amount
              period := pd.period
              status := "pending"
              source := "web_form"
              created_at := now
              screenshot_id := sid }] ∧
       handleScreenshot (handleScreenshot db ud uid true sid now true).db
         (handleScreenshot db ud uid true sid now true).ud uid true sid2
         now2 nOk2 =
       ⟨(handleScreenshot db ud uid true sid now true).db,
        (handleScreenshot db ud uid true sid now true).ud,
        MainReply.submitDetailsFirst, false⟩) ∧
    (∀ (db : MainDB) (ud : UserData) (pd : PaymentBuffer)
       (uid now : Nat) (sid : String), ud.payment = some pd →
       (handleScreenshot db ud uid true sid now false).ud.payment =
         some pd ∧
       (handleScreenshot db ud uid true sid now
         false).db.payments.length = db.payments.length + 1) := by
  refine ⟨?_, ?_, ?_⟩
  · intro db ud uid now hp sid nOk hud
    simp [handleScreenshot, hud]
  · intro db ud pd uid now now2 sid sid2 nOk2 hud
    refine ⟨?_, ?_, ?_⟩
    · simp [handleScreenshot, hud]
    · simp [handleScreenshot, hud]
    · simp [handleScreenshot, hud]
  · intro db ud pd uid now sid hud
    constructor
    · simp [handleScreenshot, hud]
    · simp [handleScreenshot, hud]

/-- Witness for the amended C9 theorem at concrete states: a photo with
no buffered claim inserts nothing, and a buffered claim with successful
notification inserts exactly once and clears the buffer. -/
theorem C9_amended_buffer_lifecycle_witness :
    handleScreenshot ⟨[], [], 0⟩ ⟨none, none⟩ 7 true "p0" 5 true =
      ⟨⟨[], [], 0⟩, ⟨none, none⟩, MainReply.submitDetailsFirst, false⟩ ∧
    (handleScreenshot ⟨[], [], 0⟩ c9Ud 7 true "p1" 10 true).ud.payment =
      none ∧
    (handleScreenshot ⟨[], [], 0⟩ c9Ud 7 true "p1" 10
      true).db.payments =
      [{ pid := 0
         user_id := 7
         username := "alice"
         transaction_id := "TX9"
         amount := 60
         period := "1Month"
         status := "pending"
         source := "web_form"
         created_at := 10
         screenshot_id := "p1" }] := by
  refine ⟨?_, ?_, ?_⟩
  · exact C9_amended_buffer_lifecycle.1 ⟨[], [], 0⟩ ⟨none, none⟩ 7 5 true
      "p0" true rfl
  · exact (C9_amended_buffer_lifecycle.2.1 ⟨[], [], 0⟩ c9Ud
      ⟨"alice", "TX9", 60, "1Month"⟩ 7 10 11 "p1" "p2" true rfl).1
  · have h := (C9_amended_buffer_lifecycle.2.1 ⟨[], [], 0⟩ c9Ud
      ⟨"alice", "TX9", 60, "1Month"⟩ 7 10 11 "p1" "p2" true rfl).2.1
    simpa using h

/-! ### Claim C10 -/

/-- C10: in the text-submission intake of `bot.py`, a payment request is
inserted exactly when the username claimed inside the message equals the
sender username case-insensitively; on a mismatch the sender is warned
and the store is untouched. -/
theorem C10_username_match_gate :
    ∀ (db : BotDB) (uid now : Nat) (sender claimed txn amt tp : String),
      (strLower sender ≠ strLower claimed →
        botHandleMessage db uid sender (some (claimed, txn, amt, tp)) now =
          (db, BotReply.usernameMismatch)) ∧
      (strLower sender = strLower claimed →
        botHandleMessage db uid sender (some (claimed, txn, amt, tp)) now =
          (⟨db.payment_requests ++
             [⟨db.nextId, uid, sender, txn, amt, tp, "pending", none, now,
               none⟩], db.nextId + 1⟩, BotReply.requestReceived)) := by
  intro db uid now sender claimed txn amt tp
  constructor
  · intro h
    simp [botHandleMessage, h]
  · intro h
    simp [botHandleMessage, h]

/-- Witness for C10 at concrete inputs: a mismatching claimed username
is warned away with no insert, and a case-insensitively matching one is
inserted. -/
theorem C10_username_match_gate_witness :
    botHandleMessage ⟨[], 0⟩ 5 "Alice" (some ("Bob", "T1", "60",
      "30 Days")) 3 = (⟨[], 0⟩, BotReply.usernameMismatch) ∧
    botHandleMessage ⟨[], 0⟩ 5 "Alice" (some ("ALICE", "T1", "60",
      "30 Days")) 3 =
      (⟨[⟨0, 5, "Alice", "T1", "60", "30 Days", "pending", none, 3,
        none⟩], 1⟩, BotReply.requestReceived) :=
  ⟨(C10_username_match_gate ⟨[], 0⟩ 5 3 "Alice" "Bob" "T1" "60"
      "30 Days").1 (by decide),
   (C10_username_match_gate ⟨[], 0⟩ 5 3 "Alice" "ALICE" "T1" "60"
      "30 Days").2 (by decide)⟩
